import Mathlib

/-
Verification of the flows module of openml-python (src/openml/flows/flow.py).

The development shallowly embeds the data model and the operations of the
module:
  - `PyVal` models the Python scalar values that appear as attribute values
    (strings, ints, None).
  - `XDoc` models the ordered-dictionary document trees produced by
    `OpenMLFlow._to_dict` and consumed by `OpenMLFlow._from_xml`
    (xmltodict-style nested OrderedDicts and lists).
  - `OpenMLFlow` models the flow entity; the ordered mappings
    (`parameters`, `parameters_meta_info`, `components`) are association
    lists, which preserve insertion order exactly as `OrderedDict` does.
  - Fallible Python code (raising exceptions) is modelled with `Except`,
    `PyError` standing for the exception kinds that can be raised.

Recursive operations over the nested trees are defined with an explicit
recursion-depth argument (structural recursion on `Nat`) so that every
definition is executable by the kernel; the public wrappers supply
`sizeOf` of the argument as the depth, which always dominates the actual
nesting depth of the recursion.
-/

set_option autoImplicit false

/-- Python scalar values used as flow attribute values: strings, integers
and None. Non-string, non-None scalars (modelled by `int`) are what the
serializer's type check rejects. -/
inductive PyVal where
  | str : String → PyVal
  | int : Int → PyVal
  | none : PyVal
deriving DecidableEq, Repr

/-- Exception kinds raised by the module: `ValueError`, `TypeError` and
`KeyError` (dictionary access with a missing key). -/
inductive PyError where
  | valueError (msg : String)
  | typeError (msg : String)
  | keyError (key : String)
deriving DecidableEq, Repr

/-- A parameter meta-info record. In the source this is a dict with the
required keys `data_type` and `description` (class docstring); each value
may be None (modelled by `PyVal.none`). -/
structure MetaInfo where
  data_type : PyVal
  description : PyVal
deriving DecidableEq, Repr

/-- xmltodict-style document tree: nested ordered dictionaries with string
keys, lists, and scalar leaves. This is the type of the dictionaries
produced by `_to_dict` and accepted by `_from_xml`. -/
inductive XDoc where
  | val : PyVal → XDoc
  | list : List XDoc → XDoc
  | dict : List (String × XDoc) → XDoc
deriving Repr

/-- The non-recursive attributes of a flow, exactly the attributes that
`OpenMLFlow.__init__` stores on `self` (except `components`, which is the
recursive part). -/
structure FlowData where
  name : String
  description : String
  model : PyVal
  parameters : List (PyVal × PyVal)
  parameters_meta_info : List (PyVal × MetaInfo)
  external_version : String
  tags : List String
  language : Option String
  dependencies : Option String
  binary_url : Option String
  binary_format : Option String
  binary_md5 : Option String
  uploader : Option String
  upload_date : Option String
  flow_id : Option Int
  version : Option String
deriving DecidableEq, Repr

/-- A flow entity: its scalar data together with the ordered mapping from
component identifier to child flow. -/
inductive OpenMLFlow where
  | mk (data : FlowData) (components : List (String × OpenMLFlow))

/-- Projection to the scalar data of a flow. -/
def OpenMLFlow.data : OpenMLFlow → FlowData
  | .mk d _ => d

/-- Projection to the components mapping of a flow. -/
def OpenMLFlow.components : OpenMLFlow → List (String × OpenMLFlow)
  | .mk _ c => c

/-- `self._get_name()`: returns the stored name attribute. -/
def getName (f : OpenMLFlow) : String :=
  f.data.name

mutual
/-- Structural size of a document tree (used as a recursion-depth bound for
the deserializer: the recursion of `_from_xml` descends into nested
components, so its depth is bounded by `xSize`). -/
def xSize : XDoc → Nat
  | .val _ => 1
  | .list xs => 1 + xSizeList xs
  | .dict es => 1 + xSizeEntries es

/-- Size of a list of documents. -/
def xSizeList : List XDoc → Nat
  | [] => 0
  | x :: xs => 1 + xSize x + xSizeList xs

/-- Size of the entry list of a document dictionary. -/
def xSizeEntries : List (String × XDoc) → Nat
  | [] => 0
  | (_, v) :: es => 1 + xSize v + xSizeEntries es
end

mutual
/-- Structural size of a flow (a recursion-depth bound for serialization
and equality, whose recursion descends into components). -/
def fSize : OpenMLFlow → Nat
  | .mk _ cs => 1 + fSizeComps cs

/-- Size of a components mapping. -/
def fSizeComps : List (String × OpenMLFlow) → Nat
  | [] => 0
  | (_, c) :: rest => 1 + fSize c + fSizeComps rest
end

/-- First-match lookup in an ordered association list with `PyVal` keys;
models Python dictionary access `d[key]` returning the stored value. -/
def lookupPy {α : Type} : List (PyVal × α) → PyVal → Option α
  | [], _ => none
  | (k, v) :: rest, key => if k = key then some v else lookupPy rest key

/-- First-match lookup in the entry list of a document dictionary. -/
def lookupEntries : List (String × XDoc) → String → Option XDoc
  | [], _ => none
  | (k, v) :: rest, key => if k = key then some v else lookupEntries rest key

/-- `str(value)` for the scalar values we model. -/
def pyStr : PyVal → String
  | .str s => s
  | .int i => toString i
  | .none => "None"

/-- The name of the Python type of a scalar value (Python renders it as
type(...) inside error messages; the surrounding decoration is omitted). -/
def pyTypeName : PyVal → String
  | .str _ => "str"
  | .int _ => "int"
  | .none => "NoneType"

/-- The serializer check `value is None or isinstance(value, six.string_types)`:
a value placed in a parameter block passes iff it is None or a string. -/
def serializableVal : PyVal → Bool
  | .none => true
  | .str _ => true
  | _ => false

/-- The entries of one `parameter` block of `_to_dict`, in emission order:
`oml:name` (the parameter name), `oml:data_type` (only when the meta-info
data_type is not None), `oml:default_value` (the stored default value),
`oml:description` (only when the meta-info description is not None). -/
def paramEntries (k v : PyVal) (m : MetaInfo) : List (String × PyVal) :=
  [("oml:name", k)]
    ++ (if m.data_type ≠ PyVal.none then [("oml:data_type", m.data_type)] else [])
    ++ [("oml:default_value", v)]
    ++ (if m.description ≠ PyVal.none then [("oml:description", m.description)] else [])

/-- The validation loop of `_to_dict` over the items of one parameter
block: returns the first `ValueError` raised, or none. The keys of the
block are the literal tag strings (`oml:name`, ...), so the branch of the
source that checks the key for being a string never fires; only the value
check can raise. -/
def checkEntries : List (String × PyVal) → Option PyError
  | [] => none
  | (_, v) :: rest =>
    if serializableVal v then checkEntries rest
    else some (.valueError ("Parameter value " ++ pyStr v
        ++ " cannot be serialized because it is of type " ++ pyTypeName v
        ++ ". Only strings can be serialized."))

/-- The parameter loop of `_to_dict`: one block per entry of `parameters`
in insertion order; the meta-info of each key is looked up (KeyError if
absent), the block is built and validated, and the first error aborts the
whole serialization. -/
def paramBlocks : List (PyVal × PyVal) → List (PyVal × MetaInfo) →
    Except PyError (List XDoc)
  | [], _ => .ok []
  | (k, v) :: rest, pmi =>
    match lookupPy pmi k with
    | none => .error (.keyError (pyStr k))
    | some m =>
      let es := paramEntries k v m
      match checkEntries es with
      | some e => .error e
      | none =>
        match paramBlocks rest pmi with
        | .error e => .error e
        | .ok bs => .ok (.dict (es.map (fun p => (p.1, XDoc.val p.2))) :: bs)

/-- An optional scalar field of the flow document: emitted only when the
attribute is not None. -/
def optEntry (k : String) : Option String → List (String × XDoc)
  | some s => [(k, .val (.str s))]
  | none => []

/-- The optional `oml:id` field of the flow document: emitted (as the
integer flow id) only when `flow_id` is not None. -/
def idEntry : Option Int → List (String × XDoc)
  | some i => [("oml:id", .val (.int i))]
  | none => []

/-- The body of `_to_dict`: the ordered entries of the `oml:flow` element,
in the schema-mandated order. The recursion into components is bounded by
the explicit depth argument; `toDict` supplies `fSize`, which dominates
the component-nesting depth, so the depth-exhaustion branch is never taken
on any actual flow. Components are emitted as a block holding the
identifier and the recursively serialized child (the source reads
`child._to_dict()["oml:flow"]`, i.e. exactly the child entry list). -/
def flowEntriesFuel : Nat → OpenMLFlow → Except PyError (List (String × XDoc))
  | 0, _ => .error (.typeError "maximum recursion depth exceeded")
  | n+1, .mk d cs =>
    match paramBlocks d.parameters d.parameters_meta_info with
    | .error e => .error e
    | .ok ps =>
      match cs.mapM (fun kc =>
          (flowEntriesFuel n kc.2).map (fun inner =>
            XDoc.dict [("oml:identifier", XDoc.val (.str kc.1)),
                       ("oml:flow", XDoc.dict inner)])) with
      | .error e => .error e
      | .ok cblocks =>
        .ok ([("@xmlns:oml", XDoc.val (.str "http://openml.org/openml"))]
          ++ idEntry d.flow_id
          ++ optEntry "oml:uploader" d.uploader
          ++ [("oml:name", XDoc.val (.str d.name))]
          ++ optEntry "oml:version" d.version
          ++ [("oml:external_version", XDoc.val (.str d.external_version)),
              ("oml:description", XDoc.val (.str d.description))]
          ++ optEntry "oml:upload_date" d.upload_date
          ++ optEntry "oml:language" d.language
          ++ optEntry "oml:dependencies" d.dependencies
          ++ [("oml:parameter", XDoc.list ps),
              ("oml:component", XDoc.list cblocks),
              ("oml:tag", XDoc.list (d.tags.map (fun t => XDoc.val (.str t))))]
          ++ optEntry "oml:binary_url" d.binary_url
          ++ optEntry "oml:binary_format" d.binary_format
          ++ optEntry "oml:binary_md5" d.binary_md5)

/-- `OpenMLFlow._to_dict`: the dictionary representation of the flow, a
single `oml:flow` element wrapping the ordered field entries.
(`_to_xml` renders this dictionary to text and strips the declaration
line; the text rendering is not modelled.) -/
def toDict (f : OpenMLFlow) : Except PyError XDoc :=
  (flowEntriesFuel (fSize f) f).map (fun es => XDoc.dict [("oml:flow", XDoc.dict es)])

/-- Dictionary item access `d[key]` on a parsed document node: a missing
key raises `KeyError`; indexing a non-dictionary raises `TypeError`. -/
def getItem : XDoc → String → Except PyError XDoc
  | .dict es, k =>
    match lookupEntries es k with
    | some v => .ok v
    | none => .error (.keyError k)
  | .list _, _ => .error (.typeError "list indices must be integers")
  | .val (.str _), _ => .error (.typeError "string indices must be integers")
  | .val _, _ => .error (.typeError "object is not subscriptable")

/-- Non-raising access `d.get(key)` / `key in d` used for the optional
parts of the document (only ever reached once the mandatory `d[key]`
accesses have succeeded, hence once the node is a dictionary). -/
def dicGet : XDoc → String → Option XDoc
  | .dict es, k => lookupEntries es k
  | _, _ => none

/-- The single-vs-sequence normalization of `_from_xml`: xmltodict returns
a dict when a repeated element occurs once and a list when it occurs
several times, so `if isinstance(x, dict): x = [x]` coerces both shapes to
a list before iterating. Iterating a scalar raises `TypeError` (the
Python quirk that a plain string iterates as its characters is not
modelled: the repeated fields of documents produced by `_to_dict` or by
xmltodict are dictionaries or lists). -/
def normalizeMulti : XDoc → Except PyError (List XDoc)
  | .dict es => .ok [.dict es]
  | .list xs => .ok xs
  | .val _ => .error (.typeError "object is not iterable")

/-- A character stripped by `int(str)` before parsing (ASCII whitespace). -/
def isSpaceChar (c : Char) : Bool :=
  decide (c = ' ') || decide (c = '\t') || decide (c = '\n') || decide (c = '\r')
    || decide (c.toNat = 11) || decide (c.toNat = 12)

/-- The decimal value of a digit character, if it is one. -/
def charDigit (c : Char) : Option Nat :=
  if 48 ≤ c.toNat ∧ c.toNat ≤ 57 then some (c.toNat - 48) else none

/-- Accumulating base-10 digit parser: fails on a non-digit, and on an
empty digit sequence (the accumulator starts out absent). -/
def parseDigits : List Char → Option Nat → Option Nat
  | [], acc => acc
  | c :: cs, acc =>
    match charDigit c with
    | some d => parseDigits cs (some ((acc.getD 0) * 10 + d))
    | none => none

/-- `int(string)`: surrounding whitespace is stripped, an optional sign is
followed by one or more decimal digits; anything else fails. -/
def pyParseInt (s : String) : Option Int :=
  let cs := s.data.dropWhile isSpaceChar
  let cs := (cs.reverse.dropWhile isSpaceChar).reverse
  match cs with
  | '-' :: rest => (parseDigits rest none).map (fun n => -(n : Int))
  | '+' :: rest => (parseDigits rest none).map (fun n => (n : Int))
  | rest => (parseDigits rest none).map (fun n => (n : Int))

/-- `int(x)`: integers pass through, strings are parsed (ValueError when
unparseable), anything else raises `TypeError`. -/
def pyInt : XDoc → Except PyError Int
  | .val (.int i) => .ok i
  | .val (.str s) =>
    match pyParseInt s with
    | some i => .ok i
    | none => .error (.valueError ("invalid literal for int with base 10: " ++ s))
  | _ => .error (.typeError "int argument must be a string or a number")

mutual
/-- Python `==` on document nodes, used for dictionary-key comparison when
`_from_xml` stores parameters/components under keys taken from the
document. -/
def xdocBeq : XDoc → XDoc → Bool
  | .val a, .val b => decide (a = b)
  | .list xs, .list ys => xdocBeqList xs ys
  | .dict xs, .dict ys => xdocBeqEntries xs ys
  | _, _ => false

/-- Pointwise `==` on lists of nodes. -/
def xdocBeqList : List XDoc → List XDoc → Bool
  | [], [] => true
  | x :: xs, y :: ys => xdocBeq x y && xdocBeqList xs ys
  | _, _ => false

/-- Pointwise `==` on dictionary entry lists. -/
def xdocBeqEntries : List (String × XDoc) → List (String × XDoc) → Bool
  | [], [] => true
  | (k1, v1) :: xs, (k2, v2) :: ys =>
    decide (k1 = k2) && xdocBeq v1 v2 && xdocBeqEntries xs ys
  | _, _ => false
end

/-- Python dictionary assignment `m[k] = v` on an ordered mapping with
document-node keys: replaces the value in place when the key is present,
appends otherwise. -/
def dictInsertX {α : Type} : List (XDoc × α) → XDoc → α → List (XDoc × α)
  | [], k, v => [(k, v)]
  | (k0, v0) :: rest, k, v =>
    if xdocBeq k0 k then (k0, v) :: rest
    else (k0, v0) :: dictInsertX rest k v

/-- The meta-info dictionary `_from_xml` builds for one parameter: the
`description` and `data_type` values of the parameter block (each None
when absent; insertion order description, data_type as in the source). -/
structure MetaDoc where
  description : Option XDoc
  data_type : Option XDoc
deriving Repr

/-- The parameter part of `_from_xml`: normalizes the single-vs-sequence
shape of `oml:parameter`, then for each block reads the mandatory
`oml:name` and `oml:default_value` and the optional `oml:description` and
`oml:data_type`, filling the `parameters` and `parameters_meta_info`
ordered mappings. An absent `oml:parameter` field yields empty mappings. -/
def parseParameters (dic : XDoc) :
    Except PyError (List (XDoc × XDoc) × List (XDoc × MetaDoc)) :=
  match dicGet dic "oml:parameter" with
  | none => .ok ([], [])
  | some v => do
    let oml_parameters ← normalizeMulti v
    oml_parameters.foldlM (fun acc p => do
        let parameter_name ← getItem p "oml:name"
        let default_value ← getItem p "oml:default_value"
        let meta : MetaDoc := ⟨dicGet p "oml:description", dicGet p "oml:data_type"⟩
        pure (dictInsertX acc.1 parameter_name default_value,
              dictInsertX acc.2 parameter_name meta))
      (([], []) : List (XDoc × XDoc) × List (XDoc × MetaDoc))

/-- The component part of `_from_xml`: normalizes the single-vs-sequence
shape of `oml:component`, then for each block recursively deserializes the
component (which contains its own `oml:flow` element) and stores the
resulting flow under the block's `oml:identifier`. An absent
`oml:component` field yields an empty mapping. -/
def parseComponents (recur : XDoc → Except PyError OpenMLFlow) (dic : XDoc) :
    Except PyError (List (XDoc × OpenMLFlow)) :=
  match dicGet dic "oml:component" with
  | none => .ok []
  | some v => do
    let oml_components ← normalizeMulti v
    oml_components.foldlM (fun acc component => do
        let flow ← recur component
        let ident ← getItem component "oml:identifier"
        pure (dictInsertX acc ident flow))
      ([] : List (XDoc × OpenMLFlow))

/-- The tag part of `_from_xml`: an absent or None `oml:tag` field yields
an empty tag list, otherwise the single-vs-sequence normalization is
applied and the tags are collected in order. -/
def parseTags (dic : XDoc) : Except PyError (List XDoc) :=
  match dicGet dic "oml:tag" with
  | none => .ok []
  | some (.val .none) => .ok []
  | some v => normalizeMulti v

/-- The keyword arguments `_from_xml` accumulates before its final
constructor call: everything `__init__` needs except `model`, which is
never put into the dictionary. -/
structure FlowArguments where
  name : XDoc
  external_version : XDoc
  uploader : Option XDoc
  description : Option XDoc
  upload_date : Option XDoc
  language : Option XDoc
  dependencies : Option XDoc
  version : Option XDoc
  binary_url : Option XDoc
  binary_format : Option XDoc
  binary_md5 : Option XDoc
  flow_id : Option Int
  parameters : List (XDoc × XDoc)
  parameters_meta_info : List (XDoc × MetaDoc)
  components : List (XDoc × OpenMLFlow)
  tags : List XDoc

/-- The body of `_from_xml` up to (but not including) the final
`cls(**arguments)` call, in source order: the `oml:flow` element is
extracted, the mandatory fields `oml:name` and `oml:external_version` are
read (KeyError when missing), the optional scalar fields are read with
`.get`, `oml:id` is parsed as an integer when present, and the parameter,
component and tag parts are parsed. `recur` is the recursive deserializer
applied to each component block. -/
def parseFlowArgs (recur : XDoc → Except PyError OpenMLFlow) (d : XDoc) :
    Except PyError FlowArguments := do
  let dic ← getItem d "oml:flow"
  let name ← getItem dic "oml:name"
  let external_version ← getItem dic "oml:external_version"
  let uploader := dicGet dic "oml:uploader"
  let description := dicGet dic "oml:description"
  let upload_date := dicGet dic "oml:upload_date"
  let language := dicGet dic "oml:language"
  let dependencies := dicGet dic "oml:dependencies"
  let version := dicGet dic "oml:version"
  let binary_url := dicGet dic "oml:binary_url"
  let binary_format := dicGet dic "oml:binary_format"
  let binary_md5 := dicGet dic "oml:binary_md5"
  let flow_id ← match dicGet dic "oml:id" with
    | none => pure (none : Option Int)
    | some v => (pyInt v).map some
  let pp ← parseParameters dic
  let components ← parseComponents recur dic
  let tags ← parseTags dic
  pure { name, external_version, uploader, description, upload_date,
         language, dependencies, version, binary_url, binary_format,
         binary_md5, flow_id,
         parameters := pp.1, parameters_meta_info := pp.2,
         components, tags }

/-- The `TypeError` message of the final `cls(**arguments)` call of
`_from_xml`: `arguments` never contains the mandatory constructor
parameter `model`, so binding the call fails. -/
def modelMissingMsg : String :=
  "__init__() missing 1 required positional argument: model"

/-- `OpenMLFlow._from_xml` with an explicit recursion-depth bound: parses
the document exactly as the source does and then performs the
`cls(**arguments)` call, which raises `TypeError` because `model` is
missing from `arguments`. -/
def fromXmlFuel : Nat → XDoc → Except PyError OpenMLFlow
  | 0, _ => .error (.typeError "maximum recursion depth exceeded")
  | n+1, d =>
    match parseFlowArgs (fun c => fromXmlFuel n c) d with
    | .error e => .error e
    | .ok _arguments => .error (.typeError modelMissingMsg)

/-- `OpenMLFlow._from_xml`: the depth bound `xSize d` dominates the
component-nesting depth of the document, so the depth-exhaustion branch is
never reached. -/
def fromXml (d : XDoc) : Except PyError OpenMLFlow :=
  fromXmlFuel (xSize d) d

/-- `this.keys() == other.keys()`: dict key views compare as sets. -/
def keySetEqB {κ : Type} [DecidableEq κ] (a b : List κ) : Bool :=
  decide (∀ k ∈ a, k ∈ b) && decide (∀ k ∈ b, k ∈ a)

/-- `all(x == y for x, y in zip(xs, ys))`: pairwise comparison of two value
sequences, truncated to the shorter one as `zip` does. -/
def valuesZipEqB {α : Type} [DecidableEq α] (xs ys : List α) : Bool :=
  (xs.zip ys).all (fun p => decide (p.1 = p.2))

/-- The `parameters_equal` clause of `OpenMLFlow.__eq__`: the key views
must be equal as sets, and the value sequences are then compared pairwise
in insertion order (zip of `.values()`). -/
def paramsEqB (ps qs : List (PyVal × PyVal)) : Bool :=
  keySetEqB (ps.map Prod.fst) (qs.map Prod.fst)
    && valuesZipEqB (ps.map Prod.snd) (qs.map Prod.snd)

/-- The `equal` clause of `OpenMLFlow.__eq__`: `this_dict == other_dict`
after `parameters`, `components` and `model` are removed and the
server-generated fields (`name`, `flow_id`, `uploader`, `version`,
`upload_date`, `binary_url`, `binary_format`, `binary_md5`; the legacy
`source_*` names are never attributes) are deleted. What remains is
exactly `description`, `parameters_meta_info`, `external_version`,
`tags`, `language` and `dependencies`, compared by value
(`parameters_meta_info` values are ordered dictionaries, whose equality is
order-sensitive, hence plain list equality on the association list). -/
def nonServerEqB (a b : FlowData) : Bool :=
  decide (a.description = b.description)
    && decide (a.parameters_meta_info = b.parameters_meta_info)
    && decide (a.external_version = b.external_version)
    && decide (a.tags = b.tags)
    && decide (a.language = b.language)
    && decide (a.dependencies = b.dependencies)

/-- `OpenMLFlow.__eq__` with an explicit recursion-depth bound (the
comparison recurses into components). Clause order as in the source:
`parameters_equal and components_equal and equal and equal_name`, where
`equal_name` compares `self._get_name()` with `other._get_name()`. -/
def flowEqFuel : Nat → OpenMLFlow → OpenMLFlow → Bool
  | 0, _, _ => false
  | n+1, .mk da ca, .mk db cb =>
    paramsEqB da.parameters db.parameters
      && (keySetEqB (ca.map Prod.fst) (cb.map Prod.fst)
          && ((ca.map Prod.snd).zip (cb.map Prod.snd)).all
               (fun p => flowEqFuel n p.1 p.2))
      && nonServerEqB da db
      && decide (da.name = db.name)

/-- `OpenMLFlow.__eq__`: the depth bound dominates the component-nesting
depth, so the exhaustion branch is never reached. -/
def flowEq (a b : OpenMLFlow) : Bool :=
  flowEqFuel (fSize a + fSize b) a b

/-- Rendering of a Python set of keys inside the constructor error
messages (`str(set)`; Python renders string elements with quotes, the
quoting is omitted here). -/
def pySetStr (ks : List PyVal) : String :=
  "\x7b" ++ String.intercalate ", " (ks.map pyStr) ++ "\x7d"

/-- Message of the first key-set check of `__init__` (the source
concatenates the adjacent literals with no space before
`parameters_meta_info`, faithfully kept). -/
def onlyInParametersMsg (ks : List PyVal) : String :=
  "Parameter " ++ pySetStr ks ++ " only in parameters, but not inparameters_meta_info."

/-- Message of the second key-set check of `__init__`. -/
def onlyInMetaInfoMsg (ks : List PyVal) : String :=
  "Parameter " ++ pySetStr ks ++ " only in parameters_meta_info, but not in parameters."

/-- `set(xs).difference(set(ys))` on key lists: the keys of `xs` (each
once) that are not keys of `ys`. -/
def keysOnlyInLeft (xs ys : List PyVal) : List PyVal :=
  xs.dedup.filter (fun k => decide (k ∉ ys))

/-- `OpenMLFlow.__init__`: stores the attributes after validating that
`parameters` and `parameters_meta_info` have the same key set, raising
`ValueError` naming the offending keys otherwise (first the keys only in
`parameters`, then the keys only in `parameters_meta_info`). `tags`
defaults to the empty list when None. The `isinstance(..., OrderedDict)`
`TypeError` checks of the source are enforced by the types of this
embedding (the mappings are ordered association lists by construction). -/
def flowInit (name description : String) (model : PyVal)
    (components : List (String × OpenMLFlow))
    (parameters : List (PyVal × PyVal))
    (parameters_meta_info : List (PyVal × MetaInfo))
    (external_version : String) (tags : Option (List String))
    (language dependencies binary_url binary_format binary_md5
     uploader upload_date : Option String)
    (flow_id : Option Int) (version : Option String) :
    Except PyError OpenMLFlow :=
  let keys_parameters := parameters.map Prod.fst
  let keys_parameters_meta_info := parameters_meta_info.map Prod.fst
  let diff1 := keysOnlyInLeft keys_parameters keys_parameters_meta_info
  let diff2 := keysOnlyInLeft keys_parameters_meta_info keys_parameters
  if diff1 ≠ [] then
    .error (.valueError (onlyInParametersMsg diff1))
  else if diff2 ≠ [] then
    .error (.valueError (onlyInMetaInfoMsg diff2))
  else
    .ok (.mk { name, description, model, parameters, parameters_meta_info,
               external_version, tags := tags.getD [],
               language, dependencies, binary_url, binary_format, binary_md5,
               uploader, upload_date, flow_id, version } components)

/-- The transport collaborator `_perform_api_call`: maps an endpoint path
to a status code and a response body (the body is modelled in its parsed
xmltodict form, i.e. `xmltodict.parse` is the identity here). -/
structure Transport where
  respond : String → Int × XDoc

/-- The validation `type(x) is str and len(x) > 0` of `_check_flow_exists`. -/
def isNonEmptyStr : PyVal → Bool
  | .str s => decide (s.length > 0)
  | _ => false

/-- The string content of a scalar (used to build the endpoint path once
validation has established the value is a string). -/
def strOf : PyVal → String
  | .str s => s
  | _ => ""

/-- `_check_flow_exists(name, version)`: validates both arguments are
non-empty strings (ValueError otherwise, raised before any transport
call), issues `flow/exists/<name>/<version>`, fails with ValueError on a
non-200 status, and extracts `oml:flow_exists / oml:id` from the response.
The first component of the result is the list of transport calls made, in
order; the second is the returned triple (return code, response, flow id)
or the raised error. -/
def checkFlowExists (t : Transport) (name version : PyVal) :
    List String × Except PyError (Int × XDoc × XDoc) :=
  if isNonEmptyStr name = false then
    ([], .error (.valueError "Argument name should be a non-empty string"))
  else if isNonEmptyStr version = false then
    ([], .error (.valueError "Argument version should be a non-empty string"))
  else
    let path := "flow/exists/" ++ strOf name ++ "/" ++ strOf version
    let (return_code, xml_response) := t.respond path
    if return_code ≠ 200 then
      ([path], .error (.valueError "api call failed"))
    else
      match getItem xml_response "oml:flow_exists" with
      | .error e => ([path], .error e)
      | .ok v =>
        match getItem v "oml:id" with
        | .error e => ([path], .error e)
        | .ok flow_id => ([path], .ok (return_code, xml_response, flow_id))

/-- Assignment `self.flow_id = i` performed by `publish`. -/
def setFlowId : OpenMLFlow → Int → OpenMLFlow
  | .mk d c, i => .mk { d with flow_id := some i } c

/-- `OpenMLFlow.publish`: serializes the flow, posts it to `flow/`,
parses `oml:upload_flow / oml:id` out of the response, assigns it to
`flow_id` and returns self (the flow object). The first component is the
list of transport calls made. -/
def publish (t : Transport) (f : OpenMLFlow) :
    List String × Except PyError OpenMLFlow :=
  match toDict f with
  | .error e => ([], .error e)
  | .ok _xml_description =>
    let (_return_code, return_value) := t.respond "flow/"
    match (do
        let uf ← getItem return_value "oml:upload_flow"
        let idv ← getItem uf "oml:id"
        pyInt idv : Except PyError Int) with
    | .error e => (["flow/"], .error e)
    | .ok i => (["flow/"], .ok (setFlowId f i))

/-- `OpenMLFlow._ensure_flow_exists`: checks existence of
(name, "sklearn_" + sklearn.__version__) and returns the existing id when
it is not the sentinel -1. When it is -1 the source executes
`return_code, response_xml = self.publish()`; `publish` returns the flow
object itself, which is not a pair, so the unpacking raises `TypeError`
after the publish call has completed. The first component is the list of
transport calls made. -/
def ensureFlowExists (t : Transport) (sklearn_version : String)
    (f : OpenMLFlow) : List String × Except PyError Int :=
  let flow_version := "sklearn_" ++ sklearn_version
  match checkFlowExists t (.str (getName f)) (.str flow_version) with
  | (log, .error e) => (log, .error e)
  | (log, .ok (_, _, fid)) =>
    match pyInt fid with
    | .error e => (log, .error e)
    | .ok i =>
      if i = -1 then
        match publish t f with
        | (plog, .error e) => (log ++ plog, .error e)
        | (plog, .ok _self) =>
          (log ++ plog,
           .error (.typeError "cannot unpack non-sequence OpenMLFlow object"))
      else (log, .ok i)

/-- The flow with the server-assigned fields (and the opaque model)
replaced; used to state which attributes the equality comparator
ignores. -/
def withServerFields (f : OpenMLFlow) (model : PyVal) (flow_id : Option Int)
    (uploader version upload_date binary_url binary_format binary_md5 :
      Option String) : OpenMLFlow :=
  match f with
  | .mk d c =>
    .mk { d with model := model, flow_id := flow_id, uploader := uploader,
                 version := version, upload_date := upload_date,
                 binary_url := binary_url, binary_format := binary_format,
                 binary_md5 := binary_md5 } c

/-- The `oml:name` entry of one serialized parameter block. -/
def blockName : XDoc → Option XDoc
  | .dict bes => lookupEntries bes "oml:name"
  | _ => none

/-- The names of the parameter blocks of a serialized flow document, in
emission order. -/
def emittedParamNames (d : XDoc) : Option (List (Option XDoc)) :=
  match d with
  | .dict es =>
    match lookupEntries es "oml:flow" with
    | some (.dict fes) =>
      match lookupEntries fes "oml:parameter" with
      | some (.list blocks) => some (blocks.map blockName)
      | _ => none
    | _ => none
  | _ => none

/-- Every flow has positive size. -/
theorem fSize_pos (f : OpenMLFlow) : 1 ≤ fSize f := by
  cases f with
  | mk d c => simp [fSize]

/-- A component value is no larger than the whole components mapping. -/
theorem fSize_le_of_mem_values (c : List (String × OpenMLFlow)) (x : OpenMLFlow)
    (h : x ∈ c.map Prod.snd) : fSize x ≤ fSizeComps c := by
  induction c with
  | nil => simp at h
  | cons p rest ih =>
    obtain ⟨k, y⟩ := p
    simp only [List.map_cons, List.mem_cons] at h
    rcases h with h | h
    · subst h; simp [fSizeComps]; omega
    · have := ih h
      simp [fSizeComps]; omega

/-- A zip of a list with itself pairs each element with itself. -/
theorem zip_self_mem {α : Type} (xs : List α) (p : α × α) (h : p ∈ xs.zip xs) :
    p.1 = p.2 ∧ p.1 ∈ xs := by
  induction xs with
  | nil => simp at h
  | cons x rest ih =>
    rw [List.zip_cons_cons] at h
    rcases List.mem_cons.mp h with h | h
    · subst h; simp
    · obtain ⟨h1, h2⟩ := ih h
      exact ⟨h1, List.mem_cons_of_mem _ h2⟩

/-- Key-view set comparison is reflexive. -/
theorem keySetEqB_self {κ : Type} [DecidableEq κ] (a : List κ) :
    keySetEqB a a = true := by
  simp [keySetEqB]

/-- Pairwise value comparison of a list with itself holds. -/
theorem valuesZipEqB_self {α : Type} [DecidableEq α] (xs : List α) :
    valuesZipEqB xs xs = true := by
  induction xs with
  | nil => rfl
  | cons x rest ih => simpa [valuesZipEqB, List.zip_cons_cons] using ih

/-- The parameters clause of the comparator is reflexive. -/
theorem paramsEqB_self (ps : List (PyVal × PyVal)) : paramsEqB ps ps = true := by
  simp [paramsEqB, keySetEqB_self, valuesZipEqB_self]

/-- The comparator, with sufficient depth, accepts two flows that have the
same components and whose data agree on the non-server fields compared by
`__eq__` (parameters, the six remaining dictionary fields, and the name). -/
theorem flowEqFuel_mk_of : ∀ (n : Nat) (d1 d2 : FlowData)
    (c : List (String × OpenMLFlow)),
    d1.parameters = d2.parameters → nonServerEqB d1 d2 = true →
    d1.name = d2.name → 1 + fSizeComps c ≤ n →
    flowEqFuel n (.mk d1 c) (.mk d2 c) = true := by
  intro n
  induction n with
  | zero => intro d1 d2 c _ _ _ hn; omega
  | succ m ih =>
    intro d1 d2 c hp hs hname hn
    simp only [flowEqFuel, Bool.and_eq_true]
    refine ⟨⟨⟨?_, ?_, ?_⟩, ?_⟩, ?_⟩
    · rw [hp]; exact paramsEqB_self _
    · exact keySetEqB_self _
    · rw [List.all_eq_true]
      intro p hpmem
      obtain ⟨heq, hmem⟩ := zip_self_mem _ p hpmem
      have hsz : fSize p.1 ≤ fSizeComps c := fSize_le_of_mem_values _ _ hmem
      cases hpf : p.1 with
      | mk dd cc =>
        rw [← heq, hpf]
        rw [hpf] at hsz
        have hfs : fSize (OpenMLFlow.mk dd cc) = 1 + fSizeComps cc := by simp [fSize]
        rw [hfs] at hsz
        exact ih dd dd cc rfl (by simp [nonServerEqB]) rfl (by omega)
    · exact hs
    · simp [hname]

/-- The comparator is reflexive (with the depth bound used by `flowEq`). -/
theorem flowEqFuel_self (n : Nat) (f : OpenMLFlow) (h : fSize f ≤ n) :
    flowEqFuel n f f = true := by
  cases f with
  | mk d c =>
    have : fSize (OpenMLFlow.mk d c) = 1 + fSizeComps c := by simp [fSize]
    exact flowEqFuel_mk_of n d d c rfl (by simp [nonServerEqB]) rfl (by omega)

/-- A key absent from the key view of a mapping looks up to nothing. -/
theorem lookupPy_eq_none {α : Type} (xs : List (PyVal × α)) (k : PyVal)
    (h : k ∉ xs.map Prod.fst) : lookupPy xs k = none := by
  induction xs with
  | nil => rfl
  | cons p rest ih =>
    obtain ⟨k0, v0⟩ := p
    simp only [List.map_cons, List.mem_cons, not_or] at h
    have hne : ¬(k0 = k) := fun he => h.1 he.symm
    simp only [lookupPy]
    rw [if_neg hne]
    exact ih h.2

/-- Two mappings that list the same keys in the same order, without
duplicate keys, and that store equal values under every key, list equal
value sequences. -/
theorem snd_eq_of_lookup : ∀ (xs ys : List (PyVal × PyVal)),
    xs.map Prod.fst = ys.map Prod.fst → (xs.map Prod.fst).Nodup →
    (∀ k, lookupPy xs k = lookupPy ys k) →
    xs.map Prod.snd = ys.map Prod.snd := by
  intro xs
  induction xs with
  | nil =>
    intro ys h _ _
    have : ys = [] := List.map_eq_nil_iff.mp h.symm
    simp [this]
  | cons p rest ih =>
    intro ys hk hnd hv
    obtain ⟨k1, v1⟩ := p
    cases ys with
    | nil => simp at hk
    | cons q ys' =>
      obtain ⟨k2, v2⟩ := q
      simp only [List.map_cons, List.cons.injEq] at hk
      obtain ⟨hfst, htl⟩ := hk
      subst hfst
      simp only [List.map_cons, List.nodup_cons] at hnd
      have hval : v1 = v2 := by
        have hh := hv k1
        simpa [lookupPy] using hh
      have htail : rest.map Prod.snd = ys'.map Prod.snd := by
        refine ih ys' htl hnd.2 ?_
        intro k
        by_cases hkk : k1 = k
        · subst hkk
          have h1 : lookupPy rest k1 = none := lookupPy_eq_none _ _ hnd.1
          have h2 : lookupPy ys' k1 = none := by
            refine lookupPy_eq_none _ _ ?_
            rw [← htl]; exact hnd.1
          rw [h1, h2]
        · have hh := hv k
          simp only [lookupPy, if_neg hkk] at hh
          exact hh
      simp [hval, htail]

/-- Lookup skips a leading chunk whose keys all differ from the key. -/
theorem lookupEntries_append (xs ys : List (String × XDoc)) (k : String)
    (h : ∀ p ∈ xs, p.1 ≠ k) :
    lookupEntries (xs ++ ys) k = lookupEntries ys k := by
  induction xs with
  | nil => rfl
  | cons p rest ih =>
    obtain ⟨k0, v0⟩ := p
    have hk0 : k0 ≠ k := h (k0, v0) (List.mem_cons_self _ _)
    simp only [List.cons_append, lookupEntries, if_neg hk0]
    exact ih (fun q hq => h q (List.mem_cons_of_mem _ hq))

/-- Every entry of an optional scalar field carries that field's tag. -/
theorem optEntry_key (k : String) (v : Option String) :
    ∀ p ∈ optEntry k v, p.1 = k := by
  cases v <;> simp [optEntry]

/-- Every entry of the optional id field carries the `oml:id` tag. -/
theorem idEntry_key (v : Option Int) :
    ∀ p ∈ idEntry v, p.1 = "oml:id" := by
  cases v <;> simp [idEntry]

/-- The parameter blocks a successful serialization emits carry, in order,
exactly the parameter names of the flow, each as the block's `oml:name`
entry. -/
theorem paramBlocks_names : ∀ (ps : List (PyVal × PyVal))
    (pmi : List (PyVal × MetaInfo)) (bs : List XDoc),
    paramBlocks ps pmi = .ok bs →
    bs.map blockName = ps.map (fun p => some (XDoc.val p.1)) := by
  intro ps
  induction ps with
  | nil =>
    intro pmi bs h
    simp only [paramBlocks] at h
    injection h with h
    simp [← h]
  | cons p rest ih =>
    intro pmi bs h
    obtain ⟨k, v⟩ := p
    cases hlk : lookupPy pmi k with
    | none =>
      simp only [paramBlocks, hlk] at h
      exact Except.noConfusion h
    | some m =>
      cases hce : checkEntries (paramEntries k v m) with
      | some e =>
        simp only [paramBlocks, hlk, hce] at h
        exact Except.noConfusion h
      | none =>
        cases hpb : paramBlocks rest pmi with
        | error e =>
          simp only [paramBlocks, hlk, hce, hpb] at h
          exact Except.noConfusion h
        | ok bs' =>
          simp only [paramBlocks, hlk, hce, hpb, Except.ok.injEq] at h
          subst h
          have hhd : blockName (.dict ((paramEntries k v m).map
              (fun q => (q.1, XDoc.val q.2)))) = some (XDoc.val k) := by
            simp [paramEntries, blockName, lookupEntries]
          simp only [List.map_cons, hhd, ih pmi bs' hpb]

/-- Errors produced by the parameter-block validation loop are always
`ValueError`s. -/
theorem checkEntries_valueError : ∀ (es : List (String × PyVal)) (e : PyError),
    checkEntries es = some e → ∃ msg, e = .valueError msg := by
  intro es
  induction es with
  | nil => intro e h; cases h
  | cons p rest ih =>
    intro e h
    obtain ⟨k, v⟩ := p
    simp only [checkEntries] at h
    by_cases hs : serializableVal v = true
    · rw [if_pos hs] at h; exact ih e h
    · rw [if_neg hs] at h
      injection h with h
      exact ⟨_, h.symm⟩

/-- When the validation loop raises nothing, every value of the block is
serializable (None or a string). -/
theorem checkEntries_none : ∀ (es : List (String × PyVal)),
    checkEntries es = none → ∀ p ∈ es, serializableVal p.2 = true := by
  intro es
  induction es with
  | nil => intro _ p hp; simp at hp
  | cons q rest ih =>
    intro h p hp
    obtain ⟨k, v⟩ := q
    simp only [checkEntries] at h
    by_cases hs : serializableVal v = true
    · rw [if_pos hs] at h
      rcases List.mem_cons.mp hp with hp | hp
      · subst hp; exact hs
      · exact ih h p hp
    · rw [if_neg hs] at h; cases h

/-- When some parameter of the list has a non-serializable (neither None
nor string) name or value, and every parameter key has meta-info, the
parameter loop raises a `ValueError`. -/
theorem paramBlocks_bad : ∀ (ps : List (PyVal × PyVal))
    (pmi : List (PyVal × MetaInfo)),
    (∀ k ∈ ps.map Prod.fst, (lookupPy pmi k).isSome) →
    (∃ p ∈ ps, serializableVal p.1 = false ∨ serializableVal p.2 = false) →
    ∃ msg, paramBlocks ps pmi = .error (.valueError msg) := by
  intro ps
  induction ps with
  | nil =>
    intro pmi _ hbad
    simp at hbad
  | cons p rest ih =>
    intro pmi hmeta hbad
    obtain ⟨k, v⟩ := p
    have hks : (lookupPy pmi k).isSome := hmeta k (by simp)
    obtain ⟨m, hlk⟩ := Option.isSome_iff_exists.mp hks
    cases hce : checkEntries (paramEntries k v m) with
    | some e =>
      obtain ⟨msg, hmsg⟩ := checkEntries_valueError _ _ hce
      subst hmsg
      exact ⟨msg, by simp only [paramBlocks, hlk, hce]⟩
    | none =>
      have hall := checkEntries_none _ hce
      have hk_ok : serializableVal k = true :=
        hall ("oml:name", k) (by simp [paramEntries])
      have hv_ok : serializableVal v = true :=
        hall ("oml:default_value", v) (by simp [paramEntries])
      rcases hbad with ⟨q, hq, hbadq⟩
      rcases List.mem_cons.mp hq with hq | hq
      · rw [hq] at hbadq
        rcases hbadq with hb | hb
        · rw [hk_ok] at hb; cases hb
        · rw [hv_ok] at hb; cases hb
      · obtain ⟨msg, hmsg⟩ := ih pmi
          (fun k2 hk2 => hmeta k2 (by simp [hk2])) ⟨q, hq, hbadq⟩
        refine ⟨msg, ?_⟩
        simp only [paramBlocks, hlk, hce, hmsg]

/-- The set difference of the key views is empty iff every key of the
first is a key of the second. -/
theorem keysOnlyInLeft_eq_nil (xs ys : List PyVal) :
    keysOnlyInLeft xs ys = [] ↔ ∀ k ∈ xs, k ∈ ys := by
  simp [keysOnlyInLeft, List.filter_eq_nil_iff, List.mem_dedup]

/-- Lookup walks past an entry with a different key. -/
theorem lookupEntries_cons_of_ne (k0 k : String) (v : XDoc)
    (rest : List (String × XDoc)) (h : k0 ≠ k) :
    lookupEntries ((k0, v) :: rest) k = lookupEntries rest k := by
  simp [lookupEntries, h]

/-- Lookup walks past an optional scalar field with a different tag. -/
theorem lookupEntries_optEntry_of_ne (k0 k : String) (v : Option String)
    (rest : List (String × XDoc)) (h : k0 ≠ k) :
    lookupEntries (optEntry k0 v ++ rest) k = lookupEntries rest k := by
  cases v <;> simp [optEntry, lookupEntries, h]

/-- Lookup walks past the optional id field when the key differs. -/
theorem lookupEntries_idEntry_of_ne (k : String) (v : Option Int)
    (rest : List (String × XDoc)) (h : "oml:id" ≠ k) :
    lookupEntries (idEntry v ++ rest) k = lookupEntries rest k := by
  cases v <;> simp [idEntry, lookupEntries, h]

/-- A successful serialization stores under `oml:parameter` exactly the
list of blocks the parameter loop produced. -/
theorem flowEntries_param_lookup (n : Nat) (f : OpenMLFlow)
    (es : List (String × XDoc)) (h : flowEntriesFuel n f = .ok es) :
    ∃ ps, paramBlocks f.data.parameters f.data.parameters_meta_info = .ok ps ∧
      lookupEntries es "oml:parameter" = some (.list ps) := by
  cases n with
  | zero =>
    simp only [flowEntriesFuel] at h
    exact Except.noConfusion h
  | succ m =>
    cases f with
    | mk d c =>
      cases hpb : paramBlocks d.parameters d.parameters_meta_info with
      | error e =>
        simp only [flowEntriesFuel, hpb] at h
        exact Except.noConfusion h
      | ok ps =>
        cases hcb : c.mapM (fun kc => (flowEntriesFuel m kc.2).map (fun inner =>
            XDoc.dict [("oml:identifier", XDoc.val (.str kc.1)),
                       ("oml:flow", XDoc.dict inner)])) with
        | error e =>
          simp only [flowEntriesFuel, hpb, hcb] at h
          exact Except.noConfusion h
        | ok cblocks =>
          simp only [flowEntriesFuel, hpb, hcb, Except.ok.injEq] at h
          subst h
          refine ⟨ps, by simpa [OpenMLFlow.data] using hpb, ?_⟩
          simp only [List.append_assoc, List.cons_append, List.singleton_append,
            List.nil_append]
          rw [lookupEntries_cons_of_ne _ _ _ _ (by decide),
              lookupEntries_idEntry_of_ne _ _ _ (by decide),
              lookupEntries_optEntry_of_ne _ _ _ _ (by decide),
              lookupEntries_cons_of_ne _ _ _ _ (by decide),
              lookupEntries_optEntry_of_ne _ _ _ _ (by decide),
              lookupEntries_cons_of_ne _ _ _ _ (by decide),
              lookupEntries_cons_of_ne _ _ _ _ (by decide),
              lookupEntries_optEntry_of_ne _ _ _ _ (by decide),
              lookupEntries_optEntry_of_ne _ _ _ _ (by decide),
              lookupEntries_optEntry_of_ne _ _ _ _ (by decide)]
          simp [lookupEntries]

/-- Serialization fails exactly with the parameter loop's error when that
loop fails (the parameter loop runs before the component recursion). -/
theorem toDict_error_of_paramBlocks (f : OpenMLFlow) (e : PyError)
    (h : paramBlocks f.data.parameters f.data.parameters_meta_info = .error e) :
    toDict f = .error e := by
  cases f with
  | mk d c =>
    unfold toDict
    have hs : fSize (OpenMLFlow.mk d c) = fSizeComps c + 1 := by
      simp [fSize, Nat.add_comm]
    rw [hs]
    simp only [OpenMLFlow.data] at h
    simp only [flowEntriesFuel, h, Except.map]

/-- Flow data with only the caller-supplied fields set (registry-assigned
fields absent), as produced by a plain construction before any publish. -/
def plainFlowData (name description external_version : String)
    (parameters : List (PyVal × PyVal))
    (parameters_meta_info : List (PyVal × MetaInfo)) : FlowData :=
  { name, description, external_version, parameters, parameters_meta_info,
    model := PyVal.none, tags := [], language := none, dependencies := none,
    binary_url := none, binary_format := none, binary_md5 := none,
    uploader := none, upload_date := none, flow_id := none, version := none }

/-- A meta-info record with both fields present. -/
def metaFull : MetaInfo := ⟨.str "integer", .str "docp"⟩

/-- A meta-info record with both fields None. -/
def metaNone : MetaInfo := ⟨PyVal.none, PyVal.none⟩

/-- An example component flow with one parameter. -/
def exampleComponent : OpenMLFlow :=
  .mk (plainFlowData "sub" "subdesc" "0.1" [(.str "q", .str "7")]
    [(.str "q", metaFull)]) []

/-- An example flow with one parameter, one component, two tags and a
language, and no registry-assigned fields. -/
def exampleFlow : OpenMLFlow :=
  .mk { plainFlowData "top" "topdesc" "1.0" [(.str "p", .str "0")]
          [(.str "p", metaFull)] with
        tags := ["t1", "t2"], language := some "English" }
    [("c", exampleComponent)]

/-- A flow whose only parameter has default value None (and no data_type
or description in its meta-info). -/
def flowNoneDefault : OpenMLFlow :=
  .mk (plainFlowData "f" "d" "1" [(.str "p", PyVal.none)]
    [(.str "p", metaNone)]) []

/-- A flow whose only parameter has the non-string, non-None default
value 3. -/
def flowIntDefault : OpenMLFlow :=
  .mk (plainFlowData "f" "d" "1" [(.str "p", .int 3)]
    [(.str "p", metaNone)]) []

/-- A flow whose parameters were inserted in the order b, a, c. -/
def flowBac : OpenMLFlow :=
  .mk (plainFlowData "f" "d" "1"
    [(.str "b", .str "2"), (.str "a", .str "1"), (.str "c", .str "3")]
    [(.str "b", metaNone), (.str "a", metaNone), (.str "c", metaNone)]) []

/-- A flow whose parameters were inserted in the order a, b. -/
def flowParamsAB : OpenMLFlow :=
  .mk (plainFlowData "f" "d" "1"
    [(.str "a", .str "1"), (.str "b", .str "2")]
    [(.str "a", metaNone), (.str "b", metaNone)]) []

/-- The same flow with the same key-value pairs in `parameters`, but
inserted in the order b, a (the meta-info mapping is kept in the order
a, b on both sides). -/
def flowParamsBA : OpenMLFlow :=
  .mk (plainFlowData "f" "d" "1"
    [(.str "b", .str "2"), (.str "a", .str "1")]
    [(.str "a", metaNone), (.str "b", metaNone)]) []

/-- A parameter block document (as xmltodict returns it for one
occurrence of the repeated `parameter` element). -/
def pBlockP : XDoc :=
  .dict [("oml:name", .val (.str "p")), ("oml:default_value", .val (.str "0"))]

/-- A second parameter block document. -/
def pBlockR : XDoc :=
  .dict [("oml:name", .val (.str "r")), ("oml:default_value", .val (.str "1"))]

/-- The `oml:flow` element of a well-formed document with a single
parameter object (dict shape, not wrapped in a list). -/
def dicSingleParam : XDoc :=
  .dict [("oml:name", .val (.str "f")),
         ("oml:external_version", .val (.str "1")),
         ("oml:parameter", pBlockP)]

/-- The `oml:flow` element of a well-formed document whose `parameter`
field is a sequence of two objects. -/
def dicTwoParams : XDoc :=
  .dict [("oml:name", .val (.str "f")),
         ("oml:external_version", .val (.str "1")),
         ("oml:parameter", .list [pBlockP, pBlockR])]

/-- A full input document with a single parameter object. -/
def docSingleParam : XDoc := .dict [("oml:flow", dicSingleParam)]

/-- A full input document with two parameter objects. -/
def docTwoParams : XDoc := .dict [("oml:flow", dicTwoParams)]

/-- A component block document (identifier plus nested flow element). -/
def compBlock : XDoc :=
  .dict [("oml:identifier", .val (.str "c")),
         ("oml:flow", dicSingleParam)]

/-- A registry response stating that a flow exists with the given id (the
id is a string in the response body, as in the live API). -/
def existsDoc (s : String) : XDoc :=
  .dict [("oml:flow_exists", .dict [("oml:id", .val (.str s))])]

/-- A registry response to a publish call carrying the assigned id. -/
def uploadDoc (n : Int) : XDoc :=
  .dict [("oml:upload_flow", .dict [("oml:id", .val (.int n))])]

/-- A transport whose existence check answers id 17 and whose publish
endpoint would assign id 57. -/
def transportExisting : Transport :=
  ⟨fun path => if path = "flow/" then (200, uploadDoc 57) else (200, existsDoc "17")⟩

/-- A transport whose existence check answers the sentinel -1 and whose
publish endpoint assigns id 57. -/
def transportMissing : Transport :=
  ⟨fun path => if path = "flow/" then (200, uploadDoc 57) else (200, existsDoc "-1")⟩

/-- Claim C1: the spec requires that deserializing the serialization of a
flow built with consistent parameter/meta-info keys yields a structurally
equal flow. The code cannot do this: serializing the example flow
succeeds, but `_from_xml` on the produced document raises the
missing-`model` TypeError instead of returning a flow, because its final
`cls(**arguments)` call never supplies the constructor's mandatory
`model` argument. -/
theorem claim_C1_roundtrip_raises :
    ∃ d, toDict exampleFlow = .ok d ∧
      fromXml d = .error (.typeError modelMissingMsg) :=
  ⟨_, rfl, by rfl⟩

/-- Claim C2: `_from_xml` raises an error on every input document and
never returns a flow entity; on a well-formed document the error is
precisely the TypeError caused by invoking the constructor without its
mandatory `model` argument. -/
theorem claim_C2_fromXml_always_raises :
    (∀ d : XDoc, ∃ e, fromXml d = .error e) ∧
    fromXml docSingleParam = .error (.typeError modelMissingMsg) := by
  constructor
  · intro d
    unfold fromXml
    cases hn : xSize d with
    | zero => exact ⟨.typeError "maximum recursion depth exceeded", by simp [fromXmlFuel]⟩
    | succ n =>
      cases hp : parseFlowArgs (fun c => fromXmlFuel n c) d with
      | error e => exact ⟨e, by simp only [fromXmlFuel, hp]⟩
      | ok a => exact ⟨.typeError modelMissingMsg, by simp only [fromXmlFuel, hp]⟩
  · rfl

/-- Claim C3: when the existence check answers 17, `_ensure_flow_exists`
returns 17 without any publish call (only the exists endpoint is hit).
When it answers the sentinel -1, the claim says the new id is returned;
instead the code calls publish and then raises TypeError while unpacking
`self.publish()` (a flow object, not a pair) into two variables. -/
theorem claim_C3_ensure_exists_eval :
    ensureFlowExists transportExisting "0.19" exampleFlow
      = (["flow/exists/top/sklearn_0.19"], .ok 17) ∧
    ensureFlowExists transportMissing "0.19" exampleFlow
      = (["flow/exists/top/sklearn_0.19", "flow/"],
         .error (.typeError "cannot unpack non-sequence OpenMLFlow object")) :=
  ⟨by rfl, by rfl⟩

/-- Claim C4: whenever `name` or `version` is an empty string or not a
string, `_check_flow_exists` fails with a `ValueError` and the list of
transport calls made is empty (the validation runs before any transport
call). -/
theorem claim_C4_validation_before_transport (t : Transport)
    (name version : PyVal)
    (h : isNonEmptyStr name = false ∨ isNonEmptyStr version = false) :
    ∃ msg, checkFlowExists t name version = ([], .error (.valueError msg)) := by
  by_cases hn : isNonEmptyStr name = false
  · exact ⟨"Argument name should be a non-empty string",
      by simp [checkFlowExists, hn]⟩
  · have hv : isNonEmptyStr version = false := h.resolve_left hn
    exact ⟨"Argument version should be a non-empty string",
      by simp [checkFlowExists, hn, hv]⟩

/-- Witness for C4 at the spec's example: the call with an empty name and
version "1.0" fails with a validation error and no transport call. -/
theorem claim_C4_witness :
    (isNonEmptyStr (.str "") = false ∨ isNonEmptyStr (.str "1.0") = false) ∧
    ∃ msg, checkFlowExists transportExisting (.str "") (.str "1.0")
      = ([], .error (.valueError msg)) :=
  ⟨Or.inl (by decide),
   claim_C4_validation_before_transport transportExisting (.str "")
     (.str "1.0") (Or.inl (by decide))⟩

/-- Claim C5: construction succeeds on the key-set check iff the key sets
of `parameters` and `parameters_meta_info` coincide; a mismatch raises a
`ValueError` whose message names exactly the offending keys (the keys
present only in `parameters` when there are any, otherwise the keys
present only in `parameters_meta_info`). -/
theorem claim_C5_keyset_check (name description : String) (model : PyVal)
    (components : List (String × OpenMLFlow))
    (parameters : List (PyVal × PyVal))
    (parameters_meta_info : List (PyVal × MetaInfo))
    (external_version : String) (tags : Option (List String))
    (language dependencies binary_url binary_format binary_md5
     uploader upload_date : Option String)
    (flow_id : Option Int) (version : Option String) :
    ((∃ fl, flowInit name description model components parameters
        parameters_meta_info external_version tags language dependencies
        binary_url binary_format binary_md5 uploader upload_date flow_id
        version = .ok fl) ↔
      ((∀ k ∈ parameters.map Prod.fst, k ∈ parameters_meta_info.map Prod.fst) ∧
       (∀ k ∈ parameters_meta_info.map Prod.fst, k ∈ parameters.map Prod.fst))) ∧
    (keysOnlyInLeft (parameters.map Prod.fst)
        (parameters_meta_info.map Prod.fst) ≠ [] →
      flowInit name description model components parameters
        parameters_meta_info external_version tags language dependencies
        binary_url binary_format binary_md5 uploader upload_date flow_id
        version = .error (.valueError (onlyInParametersMsg
          (keysOnlyInLeft (parameters.map Prod.fst)
            (parameters_meta_info.map Prod.fst))))) ∧
    (keysOnlyInLeft (parameters.map Prod.fst)
        (parameters_meta_info.map Prod.fst) = [] →
     keysOnlyInLeft (parameters_meta_info.map Prod.fst)
        (parameters.map Prod.fst) ≠ [] →
      flowInit name description model components parameters
        parameters_meta_info external_version tags language dependencies
        binary_url binary_format binary_md5 uploader upload_date flow_id
        version = .error (.valueError (onlyInMetaInfoMsg
          (keysOnlyInLeft (parameters_meta_info.map Prod.fst)
            (parameters.map Prod.fst))))) := by
  by_cases h1 : keysOnlyInLeft (parameters.map Prod.fst)
      (parameters_meta_info.map Prod.fst) = []
  · by_cases h2 : keysOnlyInLeft (parameters_meta_info.map Prod.fst)
        (parameters.map Prod.fst) = []
    · refine ⟨?_, fun hc => absurd h1 hc, fun _ hc => absurd h2 hc⟩
      constructor
      · intro _
        exact ⟨(keysOnlyInLeft_eq_nil _ _).mp h1, (keysOnlyInLeft_eq_nil _ _).mp h2⟩
      · intro _
        refine ⟨OpenMLFlow.mk
          { name, description, model, parameters, parameters_meta_info,
            external_version, tags := tags.getD [], language, dependencies,
            binary_url, binary_format, binary_md5, uploader, upload_date,
            flow_id, version } components, ?_⟩
        simp only [flowInit]
        rw [if_neg (by simp [h1]), if_neg (by simp [h2])]
    · refine ⟨?_, fun hc => absurd h1 hc, fun _ _ => by simp [flowInit, h1, h2]⟩
      constructor
      · intro ⟨fl, hfl⟩
        simp [flowInit, h1, h2] at hfl
      · intro ⟨_, hmk⟩
        exact absurd ((keysOnlyInLeft_eq_nil _ _).mpr hmk) h2
  · refine ⟨?_, fun _ => by simp [flowInit, h1], fun hc => absurd hc h1⟩
    constructor
    · intro ⟨fl, hfl⟩
      simp [flowInit, h1] at hfl
    · intro ⟨hkm, _⟩
      exact absurd ((keysOnlyInLeft_eq_nil _ _).mpr hkm) h1

/-- Witness for C5: a mismatched construction (parameter key a without
meta-info) fails with the message naming a, and a matched construction
succeeds on the check. -/
theorem claim_C5_witness :
    flowInit "f" "d" PyVal.none [] [(.str "a", .str "1")] [] "1" none none
        none none none none none none none none
      = .error (.valueError (onlyInParametersMsg
          (keysOnlyInLeft ([(PyVal.str "a", PyVal.str "1")].map Prod.fst)
            (([] : List (PyVal × MetaInfo)).map Prod.fst)))) ∧
    (∃ fl, flowInit "f" "d" PyVal.none [] [(.str "a", .str "1")]
        [(.str "a", metaNone)] "1" none none none none none none none none
        none none = .ok fl) :=
  ⟨(claim_C5_keyset_check "f" "d" PyVal.none [] [(.str "a", .str "1")] []
      "1" none none none none none none none none none none).2.1 (by decide),
   (claim_C5_keyset_check "f" "d" PyVal.none [] [(.str "a", .str "1")]
      [(.str "a", metaNone)] "1" none none none none none none none none
      none none).1.mpr (by decide)⟩

/-- Claim C6: the equality comparator ignores `model` and the
registry-assigned fields `flow_id`, `uploader`, `version`, `upload_date`
and the binary fields: any two copies of the same flow that differ only
in those attributes (in particular one with `flow_id` None and one with
`flow_id` 42) are judged equal. -/
theorem claim_C6_eq_ignores_server_fields (f : OpenMLFlow)
    (m1 m2 : PyVal) (id1 id2 : Option Int)
    (u1 u2 v1 v2 ud1 ud2 bu1 bu2 bf1 bf2 bm1 bm2 : Option String) :
    flowEq (withServerFields f m1 id1 u1 v1 ud1 bu1 bf1 bm1)
           (withServerFields f m2 id2 u2 v2 ud2 bu2 bf2 bm2) = true := by
  cases f with
  | mk d c =>
    simp only [withServerFields, flowEq]
    apply flowEqFuel_mk_of
    · rfl
    · simp [nonServerEqB]
    · rfl
    · have h1 : fSize (OpenMLFlow.mk
          { d with model := m1, flow_id := id1, uploader := u1, version := v1,
                   upload_date := ud1, binary_url := bu1, binary_format := bf1,
                   binary_md5 := bm1 } c) = 1 + fSizeComps c := by
        simp [fSize]
      have h2 : fSize (OpenMLFlow.mk
          { d with model := m2, flow_id := id2, uploader := u2, version := v2,
                   upload_date := ud2, binary_url := bu2, binary_format := bf2,
                   binary_md5 := bm2 } c) = 1 + fSizeComps c := by
        simp [fSize]
      rw [h1, h2]
      omega

/-- Claim C7 counterexample: two flows whose other compared attributes are
all equal, whose `parameters` mappings have identical key sets and store
equal values under every key, but which were built in different insertion
orders (a,b versus b,a); the comparator zips the value sequences in
insertion order, judges the parameters (hence the flows) unequal, and so
refutes the claim that per-key equality suffices regardless of insertion
order. -/
theorem claim_C7_counterexample :
    keySetEqB (flowParamsAB.data.parameters.map Prod.fst)
      (flowParamsBA.data.parameters.map Prod.fst) = true ∧
    (∀ k ∈ flowParamsAB.data.parameters.map Prod.fst,
      lookupPy flowParamsAB.data.parameters k
        = lookupPy flowParamsBA.data.parameters k) ∧
    nonServerEqB flowParamsAB.data flowParamsBA.data = true ∧
    getName flowParamsAB = getName flowParamsBA ∧
    paramsEqB flowParamsAB.data.parameters flowParamsBA.data.parameters
      = false ∧
    flowEq flowParamsAB flowParamsBA = false :=
  ⟨by decide, by decide, by decide, by rfl, by decide, by decide⟩

/-- Claim C7 as amended: the comparator judges the parameters of two flows
equal whenever the two mappings list identical keys in the same insertion
order (without duplicate keys, as dictionaries guarantee) and store equal
values under every key. -/
theorem claim_C7_amended_params_eq (a b : OpenMLFlow)
    (hkeys : a.data.parameters.map Prod.fst = b.data.parameters.map Prod.fst)
    (hnodup : (a.data.parameters.map Prod.fst).Nodup)
    (hvals : ∀ k, lookupPy a.data.parameters k
      = lookupPy b.data.parameters k) :
    paramsEqB a.data.parameters b.data.parameters = true := by
  have hsnd := snd_eq_of_lookup _ _ hkeys hnodup hvals
  simp only [paramsEqB, Bool.and_eq_true]
  constructor
  · rw [hkeys]; exact keySetEqB_self _
  · rw [hsnd]; exact valuesZipEqB_self _

/-- Witness for the amended C7 at a concrete flow. -/
theorem claim_C7_amended_witness :
    (flowParamsAB.data.parameters.map Prod.fst).Nodup ∧
    paramsEqB flowParamsAB.data.parameters flowParamsAB.data.parameters
      = true :=
  ⟨by decide,
   claim_C7_amended_params_eq flowParamsAB flowParamsAB rfl (by decide)
     (fun _ => rfl)⟩

/-- Claim C8: a successful serialization emits one parameter block per
entry of `parameters`, in the mapping's insertion order: the sequence of
`oml:name` values of the emitted blocks is exactly the sequence of
parameter keys of the flow. -/
theorem claim_C8_param_order (f : OpenMLFlow) (d : XDoc)
    (h : toDict f = .ok d) :
    emittedParamNames d
      = some (f.data.parameters.map (fun p => some (XDoc.val p.1))) := by
  unfold toDict at h
  cases hes : flowEntriesFuel (fSize f) f with
  | error e =>
    rw [hes] at h
    simp [Except.map] at h
  | ok es =>
    rw [hes] at h
    simp only [Except.map, Except.ok.injEq] at h
    obtain ⟨ps, hpb, hlook⟩ := flowEntries_param_lookup _ _ _ hes
    subst h
    simp [emittedParamNames, lookupEntries, hlook, paramBlocks_names _ _ _ hpb]

/-- Witness for C8 at the spec's example: parameters inserted in the
order b, a, c are emitted in exactly that order. -/
theorem claim_C8_witness :
    ∃ d, toDict flowBac = .ok d ∧
      emittedParamNames d = some [some (XDoc.val (.str "b")),
        some (XDoc.val (.str "a")), some (XDoc.val (.str "c"))] :=
  ⟨_, rfl, claim_C8_param_order flowBac _ rfl⟩

/-- Claim C9: the parsing stages of `_from_xml` normalize the
single-vs-sequence shape as the claim describes (a single parameter
object yields mappings of size 1, a two-element sequence yields size 2,
components and tags are normalized the same way, and an absent or None
tag field yields the empty sequence), but deserialization itself never
yields those mappings: on both documents `_from_xml` raises the
missing-`model` TypeError of its final constructor call. -/
theorem claim_C9_multiplicity_normalization :
    (∃ pp, parseParameters dicSingleParam = .ok pp ∧
      pp.1.length = 1 ∧ pp.2.length = 1) ∧
    (∃ pp, parseParameters dicTwoParams = .ok pp ∧
      pp.1.length = 2 ∧ pp.2.length = 2) ∧
    normalizeMulti compBlock = .ok [compBlock] ∧
    normalizeMulti (.list [compBlock, compBlock])
      = .ok [compBlock, compBlock] ∧
    parseTags dicSingleParam = .ok [] ∧
    parseTags (.dict [("oml:tag", .val .none)]) = .ok [] ∧
    parseTags (.dict [("oml:tag", .list [.val (.str "a"), .val (.str "b")])])
      = .ok [.val (.str "a"), .val (.str "b")] ∧
    fromXml docSingleParam = .error (.typeError modelMissingMsg) ∧
    fromXml docTwoParams = .error (.typeError modelMissingMsg) :=
  ⟨⟨_, by rfl, by rfl, by rfl⟩, ⟨_, by rfl, by rfl, by rfl⟩, by rfl, by rfl,
   by rfl, by rfl, by rfl, by rfl, by rfl⟩

/-- Claim C10 counterexample: the flow whose only parameter stores the
non-string default value None serializes successfully, refuting the claim
that a non-string parameter value always makes serialization raise (the
source's check lets None through: `value is not None and not
isinstance(value, six.string_types)`). -/
theorem claim_C10_counterexample :
    flowNoneDefault.data.parameters = [(.str "p", PyVal.none)] ∧
    (∀ s, PyVal.none ≠ PyVal.str s) ∧
    (∃ d, toDict flowNoneDefault = .ok d) :=
  ⟨by rfl, fun _ h => PyVal.noConfusion h, ⟨_, by rfl⟩⟩

/-- Claim C10 as amended: every name and value placed in a parameter
block must be a string or None; if some parameter of a flow (whose
parameter keys all have meta-info) has a name or value that is neither
None nor a string, serialization fails with a `ValueError` and no
document is returned. -/
theorem claim_C10_amended_serialize_raises (f : OpenMLFlow)
    (hmeta : ∀ k ∈ f.data.parameters.map Prod.fst,
      (lookupPy f.data.parameters_meta_info k).isSome)
    (hbad : ∃ p ∈ f.data.parameters,
      serializableVal p.1 = false ∨ serializableVal p.2 = false) :
    ∃ msg, toDict f = .error (.valueError msg) := by
  obtain ⟨msg, hmsg⟩ := paramBlocks_bad _ _ hmeta hbad
  exact ⟨msg, toDict_error_of_paramBlocks f _ hmsg⟩

/-- Witness for the amended C10: a parameter with integer default value 3
makes serialization fail with a `ValueError`. -/
theorem claim_C10_witness :
    (∀ k ∈ flowIntDefault.data.parameters.map Prod.fst,
      (lookupPy flowIntDefault.data.parameters_meta_info k).isSome) ∧
    (∃ p ∈ flowIntDefault.data.parameters,
      serializableVal p.1 = false ∨ serializableVal p.2 = false) ∧
    (∃ msg, toDict flowIntDefault = .error (.valueError msg)) :=
  ⟨by decide, by decide,
   claim_C10_amended_serialize_raises flowIntDefault (by decide) (by decide)⟩
